import Mathlib

/-
Verification of the roadmap HTTP service (src/main.py).

The file shallowly embeds the one source module:
- the pydantic models RoadmapResponseModel and RoadmapData,
- the prompt builder inside get_ai (lines 48-53),
- the request handler get_generated_response (lines 83-119),
- the root endpoint home (lines 66-81),
- the global exception handler (lines 55-64),
- module startup reading GEMINI_API_KEY (lines 42-44).

The external generation model is abstracted as a function
String -> Except String String (generated text, or the message of the
raised provider exception), passed in as a parameter, matching the way
chain.invoke either returns a string or raises.

Python exceptions are modelled by the inductive Exc; a handler body is a
value of Except Exc HttpResponse.  One point needs care: the module never
imports the name HTTPStatus (the imports on lines 1-12 bring in
HTTP_400_BAD_REQUEST and HTTP_500_INTERNAL_SERVER_ERROR from
starlette.status, but not http.HTTPStatus), so the two
raise HTTPException(status_code=HTTPStatus...) statements on lines 87-90
and 112-119 first evaluate the name HTTPStatus and raise NameError.  The
embedding keeps this faithful through an explicit table of the names
defined at module level (moduleNames) and a lookup step before each use
of HTTPStatus.
-/

/-- Names bound at module level in src/main.py: the imports of lines 1-12
and the module-level definitions.  HTTPStatus is absent. -/
def moduleNames : List String :=
  ["os", "logging", "RotatingFileHandler", "load_dotenv", "FastAPI",
   "HTTPException", "JSONResponse", "HTTP_400_BAD_REQUEST",
   "HTTP_500_INTERNAL_SERVER_ERROR", "GoogleGenerativeAI",
   "PromptTemplate", "RunnablePassthrough", "datetime", "BaseModel",
   "RoadmapResponseModel", "RoadmapData", "app", "logger", "API_KEY",
   "model", "get_ai", "global_exception_handler", "home",
   "get_generated_response"]

/-- The detail argument of HTTPException: either a plain string (line 89)
or the dict built on lines 114-118. -/
inductive Detail where
  | str (s : String)
  | dict (status : Nat) (timestamp : String) (message : String)
deriving DecidableEq

/-- Python exceptions that can escape the handler body: a raised
HTTPException, a NameError on an undefined name, or any other exception
identified by its message. -/
inductive Exc where
  | httpException (status : Nat) (detail : Detail)
  | nameError (name : String)
  | other (msg : String)
deriving DecidableEq

/-- Evaluating a bare name in the module namespace: returns unit when the
name is bound, raises NameError otherwise. -/
def lookupName (n : String) : Except Exc Unit :=
  if moduleNames.contains n then Except.ok () else Except.error (Exc.nameError n)

/-- The str() rendering of an exception, as the global handler applies it
on line 62. -/
def excStr : Exc → String
  | Exc.nameError n => "name \x27" ++ n ++ "\x27 is not defined"
  | Exc.other msg => msg
  | Exc.httpException st _ => toString st

/-- Pydantic model of lines 29-31: the inner response payload. -/
structure RoadmapResponseModel where
  topic : String
  data : String
deriving DecidableEq

/-- Pydantic model of lines 33-36: the success envelope. -/
structure RoadmapData where
  status : Nat
  timestamp : String
  response : RoadmapResponseModel
deriving DecidableEq

/-- The JSON body of an HTTP response produced by the service: the
success envelope from RoadmapData.dict(), the fallback body built by the
global exception handler on lines 60-63, or the body the framework
builds for a raised HTTPException. -/
inductive Body where
  | roadmap (d : RoadmapData)
  | fallback (error : String) (detail : String)
  | httpDetail (d : Detail)
deriving DecidableEq

/-- An HTTP response: numeric status code plus JSON body. -/
structure HttpResponse where
  statusCode : Nat
  body : Body
deriving DecidableEq

/-- The prompt builder inside get_ai (lines 49-51): the fixed template
string with its single placeholder concept replaced by the topic, which
is what chain.invoke(topic) renders before calling the model. -/
def get_ai_prompt (topic : String) : String :=
  "Create a structured learning roadmap for " ++ topic ++
  ". Break it into key milestones, estimate the time required for each stage, and outline essential topics. Suggest resources (books, courses, websites) and practical exercises to reinforce learning. Keep it clear, actionable, and goal-oriented."

/-- get_ai (lines 48-53): renders the prompt from the topic and invokes
the external model on it.  The model is passed as a parameter. -/
def get_ai (model : String → Except String String) (topic : String) :
    Except String String :=
  model (get_ai_prompt topic)

/-- The handler get_generated_response (lines 83-119).  Arguments: the
external model, the current UTC timestamp string, the topic path
parameter.  Returns the handler outcome (a response, or an escaping
exception) together with the number of get_ai invocations performed.

The validation check of line 85 (not topic or len(topic) > 100) is the
length test; on failure, line 87 raises HTTPException with
status_code=HTTPStatus.BAD_REQUEST, which evaluates the name HTTPStatus
first.  On the generation-failure path, line 112 likewise evaluates
HTTPStatus before building the detail dict of lines 114-118. -/
def get_generated_response (model : String → Except String String)
    (now : String) (topic : String) : Except Exc HttpResponse × Nat :=
  if topic.length = 0 ∨ topic.length > 100 then
    (match lookupName "HTTPStatus" with
     | Except.error e => Except.error e
     | Except.ok _ =>
        Except.error (Exc.httpException 400
          (Detail.str "Topic must be between 1-100 characters")), 0)
  else
    match get_ai model topic with
    | Except.ok response =>
        (Except.ok ⟨200, Body.roadmap ⟨200, now, ⟨topic, response⟩⟩⟩, 1)
    | Except.error e =>
        (match lookupName "HTTPStatus" with
         | Except.error ne => Except.error ne
         | Except.ok _ =>
            Except.error (Exc.httpException 500
              (Detail.dict 500 now ("Failed to generate roadmap: " ++ e))), 1)

/-- global_exception_handler (lines 55-64): any exception becomes a 500
response with body error: Internal Server Error, detail: str(exc). -/
def global_exception_handler (exc : Exc) : HttpResponse :=
  ⟨500, Body.fallback "Internal Server Error" (excStr exc)⟩

/-- Framework-level dispatch of an exception escaping a handler: a raised
HTTPException is turned into a response with its status code and detail
by the built-in starlette handler; every other exception reaches the
registered global_exception_handler. -/
def dispatchException : Exc → HttpResponse
  | Exc.httpException st d => ⟨st, Body.httpDetail d⟩
  | e => global_exception_handler e

/-- A full request to GET /roadmap/topic: run the handler, then route any
escaping exception through the exception dispatch. -/
def handleRequest (model : String → Except String String)
    (now : String) (topic : String) : HttpResponse :=
  match (get_generated_response model now topic).1 with
  | Except.ok r => r
  | Except.error e => dispatchException e

/-- The root endpoint home (lines 66-81): a fixed envelope with empty
topic and the static data string of line 74, wrapped in a JSONResponse
with the default status code 200.  The second component counts get_ai
invocations; the body of home contains none. -/
def home (now : String) : HttpResponse × Nat :=
  (⟨200, Body.roadmap ⟨200, now, ⟨"", "This service is working"⟩⟩⟩, 0)

/-- Handle to the constructed generation model (line 44): it stores the
API key it was given. -/
structure ModelHandle where
  apiKey : Option String
deriving DecidableEq

/-- Module startup, lines 42-44: read GEMINI_API_KEY from the process
environment and construct the model handle with it.  The second
component is the trace of environment variable reads performed. -/
def startup (env : String → Option String) : ModelHandle × List String :=
  ({ apiKey := env "GEMINI_API_KEY" }, ["GEMINI_API_KEY"])

/-- Modelled from the spec: the invoke method of the external
GoogleGenerativeAI client is not part of this repository.  Per the spec,
a missing key is not validated eagerly and surfaces only when a
generation call is attempted; with a key present the provider returns
generated text or raises on provider-side failure. -/
def invokeModel (h : ModelHandle) (provider : String → Except String String)
    (prompt : String) : Except String String :=
  match h.apiKey with
  | none => Except.error "API key missing"
  | some _ => provider prompt

/-- A piece of a prompt template: literal text or the topic placeholder. -/
inductive TemplatePiece where
  | lit (s : String)
  | placeholder
deriving DecidableEq

/-- Render a template by substituting the topic for each placeholder. -/
def render : List TemplatePiece → String → String
  | [], _ => ""
  | TemplatePiece.lit s :: rest, topic => s ++ render rest topic
  | TemplatePiece.placeholder :: rest, topic => topic ++ render rest topic

/-- Count the placeholders of a template. -/
def countPlaceholders : List TemplatePiece → Nat
  | [] => 0
  | TemplatePiece.placeholder :: rest => countPlaceholders rest + 1
  | TemplatePiece.lit _ :: rest => countPlaceholders rest

/-- The fixed template of lines 49-50, as literal text around the single
concept placeholder. -/
def promptTemplate : List TemplatePiece :=
  [TemplatePiece.lit "Create a structured learning roadmap for ",
   TemplatePiece.placeholder,
   TemplatePiece.lit ". Break it into key milestones, estimate the time required for each stage, and outline essential topics. Suggest resources (books, courses, websites) and practical exercises to reinforce learning. Keep it clear, actionable, and goal-oriented."]

theorem string_append_assoc (a b c : String) : a ++ b ++ c = a ++ (b ++ c) := by
  apply String.ext
  simp [List.append_assoc]

theorem string_append_empty (a : String) : a ++ "" = a := by
  apply String.ext
  simp

/-- Claim C3: for every topic string of length 0 or greater than 100, the
generation client is never invoked: the handler performs zero get_ai
calls, rejecting the request before any external call. -/
theorem C3_invalid_topic_never_invokes_generation
    (model : String → Except String String) (now topic : String)
    (h : topic.length = 0 ∨ topic.length > 100) :
    (get_generated_response model now topic).2 = 0 := by
  simp only [get_generated_response]
  rw [if_pos h]

theorem C3_witness :
    (get_generated_response (fun _ => Except.ok "text") "t0" "").2 = 0 :=
  C3_invalid_topic_never_invokes_generation _ _ _ (Or.inl rfl)

/-- Claim C4: for every topic string with length in the inclusive range
1 to 100, validation passes and the generation path is invoked exactly
once. -/
theorem C4_valid_topic_invokes_generation_once
    (model : String → Except String String) (now topic : String)
    (h1 : 1 ≤ topic.length) (h2 : topic.length ≤ 100) :
    (get_generated_response model now topic).2 = 1 := by
  have hc : ¬(topic.length = 0 ∨ topic.length > 100) := by omega
  simp only [get_generated_response]
  rw [if_neg hc]
  cases hg : get_ai model topic <;> rfl

theorem C4_witness :
    (get_generated_response (fun _ => Except.ok "Step 1...") "t0" "Python").2 = 1 :=
  C4_valid_topic_invokes_generation_once _ _ _ (by decide) (by decide)

/-- Claim C5: for every valid topic on the success path, the returned
envelope is status 200 with body status 200, the given timestamp, and a
response payload whose topic equals the input verbatim and whose data is
the generated text. -/
theorem C5_success_envelope_roundtrip
    (model : String → Except String String) (now topic text : String)
    (h1 : 1 ≤ topic.length) (h2 : topic.length ≤ 100)
    (hg : model (get_ai_prompt topic) = Except.ok text) :
    handleRequest model now topic =
      ⟨200, Body.roadmap ⟨200, now, ⟨topic, text⟩⟩⟩ := by
  have hc : ¬(topic.length = 0 ∨ topic.length > 100) := by omega
  have hr : get_generated_response model now topic =
      (Except.ok ⟨200, Body.roadmap ⟨200, now, ⟨topic, text⟩⟩⟩, 1) := by
    simp only [get_generated_response, get_ai]
    rw [if_neg hc, hg]
  simp [handleRequest, hr]

theorem C5_witness :
    handleRequest (fun _ => Except.ok "Step 1...") "t0" "Python" =
      ⟨200, Body.roadmap ⟨200, "t0", ⟨"Python", "Step 1..."⟩⟩⟩ :=
  C5_success_envelope_roundtrip _ "t0" "Python" "Step 1..."
    (by decide) (by decide) rfl

/-- Claim C6: every exception escaping the handler that is not an
HTTPException is converted by the global fallback to a 500 response with
body error Internal Server Error and detail the str of the exception. -/
theorem C6_global_fallback
    (model : String → Except String String) (now topic : String) (e : Exc)
    (he : (get_generated_response model now topic).1 = Except.error e)
    (hn : ∀ st d, e ≠ Exc.httpException st d) :
    handleRequest model now topic =
      ⟨500, Body.fallback "Internal Server Error" (excStr e)⟩ := by
  simp only [handleRequest, he]
  cases e with
  | httpException st d => exact absurd rfl (hn st d)
  | nameError n => rfl
  | other m => rfl

theorem C6_witness :
    handleRequest (fun _ => Except.ok "text") "t0" "" =
      ⟨500, Body.fallback "Internal Server Error"
        (excStr (Exc.nameError "HTTPStatus"))⟩ :=
  C6_global_fallback _ _ _ (Exc.nameError "HTTPStatus") rfl
    (fun _ _ h => Exc.noConfusion h)

/-- Claim C1 (as stated it fails on the code): on a 101-character topic
the service responds 500 with the generic fallback body caused by the
undefined name HTTPStatus on line 88, not 400 with a message about the
length constraint. -/
theorem C1_invalid_topic_yields_name_error_500 :
    handleRequest (fun _ => Except.ok "text") "t0"
      (String.mk (List.replicate 101 'a')) =
      ⟨500, Body.fallback "Internal Server Error"
        "name \x27HTTPStatus\x27 is not defined"⟩ := by
  rfl

/-- Claim C2 (as stated it fails on the code): when the generation client
raises, line 113 evaluates the undefined name HTTPStatus, so the global
fallback answers 500 with the NameError text and the original provider
message is not surfaced anywhere in the body. -/
theorem C2_provider_error_message_lost :
    handleRequest (fun _ => Except.error "simulated provider error")
      "t0" "Python" =
      ⟨500, Body.fallback "Internal Server Error"
        "name \x27HTTPStatus\x27 is not defined"⟩ := by
  rfl

/-- Claim C7 counterexample: the liveness body of line 74 is the string
This service is working, not API is working as claimed. -/
theorem C7_home_counterexample :
    (home "t0").1 ≠
      ⟨200, Body.roadmap ⟨200, "t0", ⟨"", "API is working"⟩⟩⟩ := by
  decide

/-- Claim C7 (amended): every call to GET / returns status 200 with the
fixed envelope of empty topic and data This service is working, built
from the given timestamp, and performs zero generation calls. -/
theorem C7_home_envelope (now : String) :
    home now =
      (⟨200, Body.roadmap ⟨200, now, ⟨"", "This service is working"⟩⟩⟩, 0) :=
  rfl

/-- Claim C8: the prompt builder is the substitution of the topic into
the single placeholder of the one fixed template, hence a deterministic
pure function of the topic. -/
theorem C8_prompt_builder_template (topic : String) :
    get_ai_prompt topic = render promptTemplate topic ∧
    countPlaceholders promptTemplate = 1 ∧
    ∀ topic2, topic = topic2 → get_ai_prompt topic = get_ai_prompt topic2 := by
  refine ⟨?_, rfl, ?_⟩
  · simp only [promptTemplate, render, get_ai_prompt]
    rw [string_append_empty]
    exact string_append_assoc _ _ _
  · intro topic2 h
    rw [h]

theorem C8_witness :
    get_ai_prompt "Python" = render promptTemplate "Python" :=
  (C8_prompt_builder_template "Python").1

/-- Claim C9: startup reads GEMINI_API_KEY exactly once, constructs the
model handle regardless of its presence (no eager failure), and a missing
key surfaces only when a generation call is attempted. -/
theorem C9_api_key_read_once_lazy (env : String → Option String) :
    (startup env).2 = ["GEMINI_API_KEY"] ∧
    (startup env).1.apiKey = env "GEMINI_API_KEY" ∧
    (env "GEMINI_API_KEY" = none →
      ∀ provider prompt,
        invokeModel (startup env).1 provider prompt =
          Except.error "API key missing") := by
  refine ⟨rfl, rfl, ?_⟩
  intro h provider prompt
  simp [invokeModel, startup, h]

theorem C9_witness :
    invokeModel (startup (fun _ => none)).1 Except.ok "p" =
      Except.error "API key missing" :=
  (C9_api_key_read_once_lazy (fun _ => none)).2.2 rfl Except.ok "p"

/-- Claim C10: because the length check of line 85 precedes the try
block, an invalid topic never produces the generation-failure envelope of
lines 114-118; the response body is never that dict for any model, any
timestamp and any message. -/
theorem C10_invalid_topic_never_generation_failure_envelope
    (model : String → Except String String) (now topic : String)
    (h : topic.length = 0 ∨ topic.length > 100) :
    ∀ ts msg, (handleRequest model now topic).body ≠
      Body.httpDetail (Detail.dict 500 ts msg) := by
  intro ts msg
  have hr : get_generated_response model now topic =
      (Except.error (Exc.nameError "HTTPStatus"), 0) := by
    simp only [get_generated_response]
    rw [if_pos h]
    rfl
  simp only [handleRequest, hr]
  exact fun hcon => Body.noConfusion hcon

theorem C10_witness :
    (handleRequest (fun _ => Except.ok "text") "t0" "").body ≠
      Body.httpDetail (Detail.dict 500 "t0" "Failed to generate roadmap: boom") :=
  C10_invalid_topic_never_generation_failure_envelope _ "t0" "" (Or.inl rfl)
    "t0" "Failed to generate roadmap: boom"
